import Mathlib

/-!
Shallow embedding of the lifecycle monitoring and notification engine of
`src/app.py` (Parkeeruitzonderingenregister): the mail dispatcher
`stuur_mail`, the mail debug log `_log_mail`, the per-table CRUD
operations of the uitzonderingen form, and the expiry scan
`check_verlopen` with its inner generic `_check`.

Dates are modelled as `y/m/d` triples; `parseDate` embeds
`datetime.strptime(s, "%Y-%m-%d")` (exactly four year digits, one or two
month and day digits, range checks including leap years), and `toOrdinal`
embeds `date.toordinal` (proleptic Gregorian day count), so that the
date comparisons of the scan become comparisons of ordinals.
-/

namespace Parkeer

/-- MAIL_ONTVANGER constant of app.py. -/
def MAIL_ONTVANGER : String := "parkeerbeleid@dordrecht.nl"

/-- MELDING_DAGEN constant of app.py (uitzonderingen/gehandicapten warning window). -/
def MELDING_DAGEN : Nat := 14

/-- CONTRACT_WARN_DAGEN constant of app.py (contracten warning window). -/
def CONTRACT_WARN_DAGEN : Nat := 90

/-- Outcome of the single Outlook COM attempt inside `stuur_mail`:
either an exception before the `SendUsingAccount` block, or the send
itself succeeds or raises, each with the optional `SendUsingAccount`
warning that is logged just before `mail.Send()`. -/
inductive OutlookOutcome where
  | earlyFail (reason : String)
  | sendOk (accountWarning : Option String)
  | sendFail (accountWarning : Option String) (reason : String)
deriving DecidableEq, Repr

/-- Outcome of the SMTP send attempt: success, or the exception it raised. -/
inductive SmtpOutcome where
  | sent
  | fail (reason : String)
deriving DecidableEq, Repr

/-- Environment of one `stuur_mail` call: the module-level channel
configuration (`OUTLOOK_OK`, `SMTP_ENABLED`, `SMTP_HOST`) and the
outcomes the outside world would give each channel attempt. -/
structure MailEnv where
  outlookOk : Bool
  outlookResult : OutlookOutcome
  smtpEnabled : Bool
  smtpHost : String
  smtpResult : SmtpOutcome
deriving DecidableEq, Repr

/-- One line `_log_mail` appends to `mail_debug.log`: one constructor
per f-string in `stuur_mail`, carrying the interpolated values;
`LogLine.render` gives the exact text written. -/
inductive LogLine where
  | accountWarn (e : String)
  | outlookSent (ontvanger onderwerp : String)
  | outlookFout (reason : String)
  | smtpSent (ontvanger onderwerp : String)
  | smtpFout (reason : String)
  | smtpNietGeconfigureerd
deriving DecidableEq, Repr

/-- The exact text of each `_log_mail` message in `stuur_mail`. -/
def LogLine.render : LogLine → String
  | .accountWarn e => "SendUsingAccount niet ingesteld: " ++ e
  | .outlookSent o s => "Outlook: verzonden naar " ++ o ++ " | onderwerp: " ++ s
  | .outlookFout r => "Outlook-fout: " ++ r
  | .smtpSent o s => "SMTP: verzonden naar " ++ o ++ " | onderwerp: " ++ s
  | .smtpFout r => "SMTP-fout: " ++ r
  | .smtpNietGeconfigureerd => "SMTP niet geconfigureerd. Geen fallback uitgevoerd."

/-- A log line of a successful send (either channel). -/
def LogLine.isVerzonden : LogLine → Bool
  | .outlookSent _ _ => true
  | .smtpSent _ _ => true
  | _ => false

/-- The failure line of the Outlook attempt. -/
def LogLine.isOutlookFout : LogLine → Bool
  | .outlookFout _ => true
  | _ => false

/-- The failure line of the SMTP attempt. -/
def LogLine.isSmtpFout : LogLine → Bool
  | .smtpFout _ => true
  | _ => false

/-- A line written by the SMTP phase (after the Outlook phase is over). -/
def LogLine.isSmtpPhase : LogLine → Bool
  | .smtpSent _ _ => true
  | .smtpFout _ => true
  | .smtpNietGeconfigureerd => true
  | _ => false

/-- Whether the Outlook attempt reached a successful `mail.Send()`. -/
def OutlookOutcome.isOk : OutlookOutcome → Bool
  | .sendOk _ => true
  | _ => false

/-- Whether the SMTP attempt succeeded. -/
def SmtpOutcome.isSent : SmtpOutcome → Bool
  | .sent => true
  | .fail _ => false

/-- Log line of the `SendUsingAccount` warning, when that inner
`try` block raises. -/
def warnLines : Option String → List LogLine
  | some e => [.accountWarn e]
  | none => []

/-- The Outlook phase of `stuur_mail`: result flag and the `_log_mail`
lines it appends. -/
def outlookPhase (res : OutlookOutcome) (ontvanger onderwerp : String) :
    Bool × List LogLine :=
  match res with
  | .earlyFail r => (false, [.outlookFout r])
  | .sendOk w => (true, warnLines w ++ [.outlookSent ontvanger onderwerp])
  | .sendFail w r => (false, warnLines w ++ [.outlookFout r])

/-- The `if SMTP_ENABLED and SMTP_HOST:` guard. -/
def smtpConfigured (env : MailEnv) : Bool :=
  env.smtpEnabled && env.smtpHost != ""

/-- The SMTP phase of `stuur_mail`: result flag and appended log lines,
including the `SMTP niet geconfigureerd` diagnostic of the `else` arm. -/
def smtpPhase (env : MailEnv) (ontvanger onderwerp : String) :
    Bool × List LogLine :=
  if smtpConfigured env then
    match env.smtpResult with
    | .sent => (true, [.smtpSent ontvanger onderwerp])
    | .fail e => (false, [.smtpFout e])
  else
    (false, [.smtpNietGeconfigureerd])

/-- `ontvanger = to_addr or MAIL_ONTVANGER` (Python truthiness: `None`
and the empty string both fall back to the default). -/
def recipientOf (toAddr : Option String) : String :=
  match toAddr with
  | some a => if a = "" then MAIL_ONTVANGER else a
  | none => MAIL_ONTVANGER

/-- Embedding of `stuur_mail`: Outlook COM first (only when
`OUTLOOK_OK`), SMTP fallback second (only when configured); returns the
success flag together with the `_log_mail` lines appended to
`mail_debug.log`, in order. -/
def stuurMail (env : MailEnv) (onderwerp tekst : String)
    (toAddr : Option String) : Bool × List LogLine :=
  let ontvanger := recipientOf toAddr
  let _ := tekst
  if env.outlookOk then
    let r1 := outlookPhase env.outlookResult ontvanger onderwerp
    if r1.1 then (true, r1.2)
    else
      let r2 := smtpPhase env ontvanger onderwerp
      (r2.1, r1.2 ++ r2.2)
  else
    smtpPhase env ontvanger onderwerp

/-- `stuur_mail` succeeds exactly when some configured channel sends. -/
def outlookSends (env : MailEnv) : Bool :=
  env.outlookOk && env.outlookResult.isOk

/-- The SMTP fallback is configured and succeeds. -/
def smtpSends (env : MailEnv) : Bool :=
  smtpConfigured env && env.smtpResult.isSent

/-! ## Dates -/

/-- A calendar date as stored in the `YYYY-MM-DD` text columns. -/
structure Date where
  y : Nat
  m : Nat
  d : Nat
deriving DecidableEq, Repr

/-- Gregorian leap year, as in the `calendar`/`datetime` modules of Python. -/
def isLeap (y : Nat) : Bool :=
  (y % 4 == 0 && y % 100 != 0) || (y % 400 == 0)

/-- Days in a month, as validated by `datetime.date`. -/
def daysInMonth (y m : Nat) : Nat :=
  if m == 2 then (if isLeap y then 29 else 28)
  else if m == 4 || m == 6 || m == 9 || m == 11 then 30
  else 31

/-- Days in the months of year `y` strictly before month `m`. -/
def daysBeforeMonth (y m : Nat) : Nat :=
  (List.range (m - 1)).foldl (fun acc i => acc + daysInMonth y (i + 1)) 0

/-- `date.toordinal`: day number in the proleptic Gregorian calendar,
with `0001-01-01` mapping to 1. -/
def toOrdinal (dt : Date) : Nat :=
  365 * (dt.y - 1) + (dt.y - 1) / 4 + (dt.y - 1) / 400 - (dt.y - 1) / 100
    + daysBeforeMonth dt.y dt.m + dt.d

/-- All-digit check for one dash-separated component. -/
def digitsToNat (cs : List Char) : Option Nat :=
  if cs ≠ [] ∧ cs.all Char.isDigit then
    some (cs.foldl (fun a c => a * 10 + (c.toNat - 48)) 0)
  else none

/-- Split a character list on the dash character. -/
def splitDash (cs : List Char) : List (List Char) :=
  match cs with
  | [] => [[]]
  | c :: rest =>
    let r := splitDash rest
    if c = '-' then [] :: r
    else
      match r with
      | [] => [[c]]
      | h :: t => (c :: h) :: t

/-- Embedding of `datetime.strptime(s, "%Y-%m-%d").date()`: exactly four
year digits, one or two month digits in 1..12, one or two day digits
valid for the month, nothing else in the string; `none` models the
`ValueError` the `except` clause of the scan swallows. -/
def parseDate (s : String) : Option Date :=
  match splitDash s.toList with
  | [ys, ms, ds] =>
    match digitsToNat ys, digitsToNat ms, digitsToNat ds with
    | some y, some m, some d =>
        if ys.length = 4 ∧ 1 ≤ y ∧ 1 ≤ m ∧ m ≤ 12 ∧ ms.length ≤ 2 ∧
            1 ≤ d ∧ ds.length ≤ 2 ∧ d ≤ daysInMonth y m then
          some ⟨y, m, d⟩
        else none
    | _, _, _ => none
  | _ => none

/-! ## Tables

One structure per SQLite table touched by the engine; `Option String`
for columns that may be SQL NULL, `Bool` for the 0/1
`melding_verzonden` column (DEFAULT 0). -/

/-- A row of the `uitzonderingen` table. -/
structure URecord where
  id : Nat
  naam : String
  kenteken : String
  locatie : String
  permitnummer : String
  easypark : String
  datum_start : Option String
  datum_einde : Option String
  prijs_maand : String
  toestemming : String
  opmerking : String
  melding_verzonden : Bool
deriving DecidableEq, Repr

/-- A row of the `gehandicapten` table. -/
structure GRecord where
  id : Nat
  naam_klant : String
  besluit_door : String
  toelichting : String
  kaartnummer : String
  adres : String
  ggpp : String
  ggpp_locatie : String
  geldig_tot : Option String
  melding_verzonden : Bool
deriving DecidableEq, Repr

/-- A row of the `contracten` table. -/
structure CRecord where
  id : Nat
  leverancier : String
  ingangsdatum : Option String
  einddatum : Option String
  contactpersoon_gemeente : String
  opmerking : String
  melding_verzonden : Bool
deriving DecidableEq, Repr

/-- The record store: the three tables the expiry scan touches. -/
structure DB where
  uitzonderingen : List URecord
  gehandicapten : List GRecord
  contracten : List CRecord
deriving DecidableEq, Repr

/-! ## The expiry scan `check_verlopen`

The inner `_check(table, name_field, date_field, days_before, what)` is
generic in the table and its column names; a `TableView` carries the
projections the chosen column names denote. -/

/-- The column projections `_check` receives through its `table`,
`name_field` and `date_field` arguments, plus the `melding_verzonden`
read/write the fixed parts of its SQL perform. -/
structure TableView (α : Type) where
  id : α → Nat
  naam : α → String
  eind : α → Option String
  flag : α → Bool
  setFlag : α → α

/-- Sets `melding_verzonden` to 1 on a `uitzonderingen` row. -/
def setFlagU (r : URecord) : URecord := { r with melding_verzonden := true }

/-- `_check` instantiated at the `uitzonderingen` table
(`name_field = naam`, `date_field = datum_einde`). -/
def uView : TableView URecord :=
  { id := URecord.id, naam := URecord.naam, eind := URecord.datum_einde,
    flag := URecord.melding_verzonden, setFlag := setFlagU }

/-- `_check` instantiated at the `gehandicapten` table
(`name_field = naam_klant`, `date_field = geldig_tot`). -/
def gView : TableView GRecord :=
  { id := GRecord.id, naam := GRecord.naam_klant, eind := GRecord.geldig_tot,
    flag := GRecord.melding_verzonden,
    setFlag := fun r => { r with melding_verzonden := true } }

/-- `_check` instantiated at the `contracten` table
(`name_field = leverancier`, `date_field = einddatum`). -/
def cView : TableView CRecord :=
  { id := CRecord.id, naam := CRecord.leverancier, eind := CRecord.einddatum,
    flag := CRecord.melding_verzonden,
    setFlag := fun r => { r with melding_verzonden := true } }

/-- Mail subject built by the scan. -/
def warnSubject (what : String) (daysBefore : Nat) : String :=
  "⚠️ " ++ what ++ " verloopt binnen " ++ toString daysBefore ++ " dagen"

/-- `vandaag <= eind <= grens` on the parsed end date, `false` when
`strptime` raises (the `except: continue`). -/
def inWindow (vandaag daysBefore : Nat) (s : String) : Bool :=
  match parseDate s with
  | none => false
  | some dt =>
      decide (vandaag ≤ toOrdinal dt) && decide (toOrdinal dt ≤ vandaag + daysBefore)

/-- State threaded through the `for r in cur.fetchall()` loop of
`_check`: the live table, the rows dispatched so far, and the
`_log_mail` lines appended so far. -/
structure ScanState (α : Type) where
  table : List α
  dispatched : List α
  log : List LogLine

/-- One iteration of the `_check` loop body: parse the end date
(`continue` on failure), and when it falls in the warning window send
the mail and run `UPDATE {table} SET melding_verzonden=1 WHERE id=?`
on the live table. -/
def scanStep {α : Type} (v : TableView α) (env : MailEnv)
    (vandaag daysBefore : Nat) (what : String)
    (acc : ScanState α) (r : α) : ScanState α :=
  match v.eind r with
  | none => acc
  | some s =>
    if inWindow vandaag daysBefore s then
      let m := stuurMail env (warnSubject what daysBefore)
        (v.naam r ++ " verloopt op " ++ s) none
      { table := acc.table.map (fun q => if v.id q == v.id r then v.setFlag q else q),
        dispatched := acc.dispatched ++ [r],
        log := acc.log ++ m.2 }
    else acc

/-- Embedding of `_check`: fetch the rows with
`melding_verzonden=0 AND {date_field} IS NOT NULL`, then run the loop
body over that snapshot while updating the live table. -/
def checkTable {α : Type} (v : TableView α) (env : MailEnv)
    (vandaag daysBefore : Nat) (what : String) (db : List α) : ScanState α :=
  let rows := db.filter (fun r => !(v.flag r) && (v.eind r).isSome)
  rows.foldl (scanStep v env vandaag daysBefore what) ⟨db, [], []⟩

/-- Embedding of `check_verlopen`: the three `_check` calls with their
hard-wired warning windows (14 / 14 / 90 days). -/
def checkVerlopen (env : MailEnv) (vandaag : Nat) (db : DB) : DB × List LogLine :=
  let s1 := checkTable uView env vandaag MELDING_DAGEN "Uitzondering" db.uitzonderingen
  let s2 := checkTable gView env vandaag MELDING_DAGEN "Gehandicaptenbesluit" db.gehandicapten
  let s3 := checkTable cView env vandaag CONTRACT_WARN_DAGEN "Contract" db.contracten
  ({ uitzonderingen := s1.table, gehandicapten := s2.table, contracten := s3.table },
   s1.log ++ s2.log ++ s3.log)

/-! ## CRUD operations of the uitzonderingen form -/

/-- The stripped form entries of the `data` dict in `formulier_u`. -/
structure UData where
  naam : String
  kenteken : String
  locatie : String
  permitnummer : String
  easypark : String
  datum_start : String
  datum_einde : String
  prijs_maand : String
  toestemming : String
  opmerking : String
deriving DecidableEq, Repr

/-- The row the INSERT branch of `formulier_u.opslaan` creates:
all form columns from `data`, `melding_verzonden` at its DEFAULT 0. -/
def mkInsertU (newId : Nat) (d : UData) : URecord :=
  { id := newId, naam := d.naam, kenteken := d.kenteken, locatie := d.locatie,
    permitnummer := d.permitnummer, easypark := d.easypark,
    datum_start := some d.datum_start, datum_einde := some d.datum_einde,
    prijs_maand := d.prijs_maand, toestemming := d.toestemming,
    opmerking := d.opmerking, melding_verzonden := false }

/-- Effect of the SET list of the UPDATE branch on one row: the ten form
columns are overwritten, `melding_verzonden` is not in the SET list. -/
def applyUpdateU (d : UData) (r : URecord) : URecord :=
  { r with
    naam := d.naam
    kenteken := d.kenteken
    locatie := d.locatie
    permitnummer := d.permitnummer
    easypark := d.easypark
    datum_start := some d.datum_start
    datum_einde := some d.datum_einde
    prijs_maand := d.prijs_maand
    toestemming := d.toestemming
    opmerking := d.opmerking }

/-- `UPDATE uitzonderingen SET ... WHERE id=:id` of `formulier_u.opslaan`. -/
def opslaanUpdateU (db : List URecord) (rid : Nat) (d : UData) : List URecord :=
  db.map (fun r => if r.id == rid then applyUpdateU d r else r)

/-- `INSERT INTO uitzonderingen ...` of `formulier_u.opslaan`. -/
def opslaanInsertU (db : List URecord) (newId : Nat) (d : UData) : List URecord :=
  db ++ [mkInsertU newId d]

/-- `DELETE FROM uitzonderingen WHERE id=?` of `verwijder_u`. -/
def verwijderU (db : List URecord) (rid : Nat) : List URecord :=
  db.filter (fun r => r.id != rid)

/-! ## World: record store plus the append-only mail debug log -/

/-- The shared state an operation can touch: the SQLite record store and
the `mail_debug.log` file `_log_mail` appends to. -/
structure World where
  db : DB
  maillog : List LogLine
deriving DecidableEq, Repr

/-- `stuur_mail` as an operation on the world: it returns its success
flag and appends its `_log_mail` lines. -/
def stuurMailW (env : MailEnv) (onderwerp tekst : String)
    (toAddr : Option String) (w : World) : Bool × World :=
  let r := stuurMail env onderwerp tekst toAddr
  (r.1, { w with maillog := w.maillog ++ r.2 })

/-- `verwijder_u` as an operation on the world: it deletes the row and
commits; no mail is sent and nothing is logged. -/
def verwijderUW (w : World) (rid : Nat) : World :=
  { w with db := { w.db with uitzonderingen := verwijderU w.db.uitzonderingen rid } }

/-! ## Spec-side conflict predicate

`src/app.py` contains no conflict detection at all; the following two
definitions render the overlap test of the spec so that its failure on this
code can be stated. -/

/-- Modelled from the spec: subject normalization of the absent
`find_conflicts` (case-fold; strip non-alphanumeric separators). -/
def normalizeSubject (s : String) : String :=
  String.mk ((s.toList.filter Char.isAlphanum).map Char.toLower)

/-- Modelled from the spec: overlap test of the absent `find_conflicts`
for two closed intervals, `a_start <= b_end AND a_end >= b_start`. -/
def windowsOverlap (aStart aEnd bStart bEnd : Nat) : Bool :=
  decide (aStart ≤ bEnd) && decide (aEnd ≥ bStart)

/-- Modelled from the spec: an existing `uitzonderingen` row conflicts
with a candidate form submission when the normalized subjects
(`kenteken`) agree and the two date windows overlap. -/
def specConflict (r : URecord) (d : UData) : Bool :=
  (normalizeSubject r.kenteken == normalizeSubject d.kenteken) &&
    (match r.datum_start.bind parseDate, r.datum_einde.bind parseDate,
        parseDate d.datum_start, parseDate d.datum_einde with
     | some a1, some a2, some b1, some b2 =>
         windowsOverlap (toOrdinal a1) (toOrdinal a2) (toOrdinal b1) (toOrdinal b2)
     | _, _, _, _ => false)

/-! ## Concrete fixtures -/

/-- A mail environment where no channel can succeed: Outlook COM not
importable and SMTP not configured. -/
def envGeenKanalen : MailEnv :=
  { outlookOk := false, outlookResult := .earlyFail "outlook ontbreekt",
    smtpEnabled := false, smtpHost := "", smtpResult := .fail "uit" }

/-- A mail environment where both channels are attempted and both fail. -/
def envBeideFalen : MailEnv :=
  { outlookOk := true, outlookResult := .sendFail none "COM-fout",
    smtpEnabled := true, smtpHost := "smtp.voorbeeld", smtpResult := .fail "verbinding" }

/-- An unnotified uitzonderingen row whose end date 2025-01-10 is due
within 14 days of 2025-01-05. -/
def recJan : URecord :=
  { id := 1, naam := "Jan", kenteken := "AB123C", locatie := "", permitnummer := "",
    easypark := "", datum_start := some "2024-12-01", datum_einde := some "2025-01-10",
    prijs_maand := "", toestemming := "", opmerking := "", melding_verzonden := false }

/-- An already-notified row. -/
def recOud : URecord :=
  { id := 2, naam := "Oud", kenteken := "XY999Z", locatie := "", permitnummer := "",
    easypark := "", datum_start := some "2024-01-01", datum_einde := some "2024-02-01",
    prijs_maand := "", toestemming := "", opmerking := "", melding_verzonden := true }

/-- A row whose stored end date is present but not in `YYYY-MM-DD` form. -/
def recStuk : URecord :=
  { id := 3, naam := "Stuk", kenteken := "QQ111Q", locatie := "", permitnummer := "",
    easypark := "", datum_start := none, datum_einde := some "10-01-2025",
    prijs_maand := "", toestemming := "", opmerking := "", melding_verzonden := false }

/-- Scenario A of the spec: existing window 2024-01-01..2024-06-30. -/
def recConflictA : URecord :=
  { id := 1, naam := "Scenario A", kenteken := "AB123C", locatie := "", permitnummer := "",
    easypark := "", datum_start := some "2024-01-01", datum_einde := some "2024-06-30",
    prijs_maand := "", toestemming := "", opmerking := "", melding_verzonden := false }

/-- Scenario A candidate: same plate up to formatting, window
2024-06-15..2024-12-31 overlapping the existing one. -/
def candA : UData :=
  { naam := "Scenario A kandidaat", kenteken := "ab-123-c", locatie := "",
    permitnummer := "", easypark := "", datum_start := "2024-06-15",
    datum_einde := "2024-12-31", prijs_maand := "", toestemming := "", opmerking := "" }

/-- A world with one uitzonderingen row and an empty mail log. -/
def worldEen : World :=
  { db := { uitzonderingen := [recJan], gehandicapten := [], contracten := [] },
    maillog := [] }

/-! ## Characterization of the scan on the uitzonderingen table -/

/-- End date present, parseable, and inside the warning window. -/
def hotU (vandaag daysBefore : Nat) (r : URecord) : Bool :=
  match r.datum_einde with
  | none => false
  | some s => inWindow vandaag daysBefore s

/-- The due predicate of the scan: not yet notified, end date present,
parseable and inside the warning window. -/
def dueU (vandaag daysBefore : Nat) (r : URecord) : Bool :=
  !r.melding_verzonden && hotU vandaag daysBefore r

/-- Effect of one `UPDATE ... SET melding_verzonden=1 WHERE id=?` on one row. -/
def updFlagU (rid : Nat) (q : URecord) : URecord :=
  if q.id == rid then setFlagU q else q

/-- The table updates the loop performs for a snapshot list of rows. -/
def applyRows (vandaag daysBefore : Nat) (l : List URecord) (t : List URecord) :
    List URecord :=
  l.foldl
    (fun t r => if hotU vandaag daysBefore r then t.map (updFlagU r.id) else t) t

lemma applyRows_cons (vandaag daysBefore : Nat) (r : URecord) (l t : List URecord) :
    applyRows vandaag daysBefore (r :: l) t =
      applyRows vandaag daysBefore l
        (if hotU vandaag daysBefore r then t.map (updFlagU r.id) else t) := rfl

lemma setFlagU_id (q : URecord) : (setFlagU q).id = q.id := rfl

lemma setFlagU_setFlagU (q : URecord) : setFlagU (setFlagU q) = setFlagU q := rfl

lemma scanStep_table (env : MailEnv) (vandaag daysBefore : Nat) (what : String)
    (acc : ScanState URecord) (r : URecord) :
    (scanStep uView env vandaag daysBefore what acc r).table =
      if hotU vandaag daysBefore r then acc.table.map (updFlagU r.id)
      else acc.table := by
  cases he : r.datum_einde with
  | none => simp [scanStep, uView, hotU, he]
  | some s =>
    by_cases hw : inWindow vandaag daysBefore s
    · simp [scanStep, uView, hotU, he, hw, updFlagU]
    · simp [scanStep, uView, hotU, he, hw]

lemma scanStep_dispatched (env : MailEnv) (vandaag daysBefore : Nat) (what : String)
    (acc : ScanState URecord) (r : URecord) :
    (scanStep uView env vandaag daysBefore what acc r).dispatched =
      if hotU vandaag daysBefore r then acc.dispatched ++ [r]
      else acc.dispatched := by
  cases he : r.datum_einde with
  | none => simp [scanStep, uView, hotU, he]
  | some s =>
    by_cases hw : inWindow vandaag daysBefore s
    · simp [scanStep, uView, hotU, he, hw]
    · simp [scanStep, uView, hotU, he, hw]

lemma foldl_scanStep_table (env : MailEnv) (vandaag daysBefore : Nat) (what : String)
    (l : List URecord) (acc : ScanState URecord) :
    (l.foldl (scanStep uView env vandaag daysBefore what) acc).table =
      applyRows vandaag daysBefore l acc.table := by
  induction l generalizing acc with
  | nil => rfl
  | cons r l ih =>
    rw [List.foldl_cons, ih, applyRows_cons, scanStep_table]

lemma foldl_scanStep_dispatched (env : MailEnv) (vandaag daysBefore : Nat)
    (what : String) (l : List URecord) (acc : ScanState URecord) :
    (l.foldl (scanStep uView env vandaag daysBefore what) acc).dispatched =
      acc.dispatched ++ l.filter (hotU vandaag daysBefore) := by
  induction l generalizing acc with
  | nil => simp
  | cons r l ih =>
    rw [List.foldl_cons, ih, scanStep_dispatched]
    by_cases hr : hotU vandaag daysBefore r
    · simp [List.filter_cons, hr]
    · simp [List.filter_cons, hr]

lemma applyRows_eq_map (vandaag daysBefore : Nat) (l t : List URecord) :
    applyRows vandaag daysBefore l t =
      t.map (fun q =>
        if l.any (fun p => hotU vandaag daysBefore p && p.id == q.id)
        then setFlagU q else q) := by
  induction l generalizing t with
  | nil => simp [applyRows]
  | cons r l ih =>
    rw [applyRows_cons]
    by_cases hr : hotU vandaag daysBefore r
    · rw [if_pos hr, ih, List.map_map]
      refine List.map_congr_left (fun q _ => ?_)
      by_cases hq : q.id == r.id
      · have hqe : q.id = r.id := eq_of_beq hq
        have hid : (r.id == q.id) = true := by simp [hqe]
        simp [Function.comp, updFlagU, hq, List.any_cons, hr, hid,
          setFlagU_id, setFlagU_setFlagU]
      · have hq' : q.id ≠ r.id := by simpa using hq
        have hid : (r.id == q.id) = false := by simpa using Ne.symm hq'
        simp [Function.comp, updFlagU, hq, List.any_cons, hid]
    · rw [if_neg hr, ih]
      refine List.map_congr_left (fun q _ => ?_)
      simp [List.any_cons, hr]

lemma any_filter_bool {α : Type} (l : List α) (f g : α → Bool) :
    (l.filter f).any g = l.any (fun a => f a && g a) := by
  induction l with
  | nil => rfl
  | cons a l ih =>
    by_cases hf : f a
    · simp [List.filter_cons, hf, List.any_cons, ih]
    · simp [List.filter_cons, hf, List.any_cons, ih]

lemma sql_and_hot (vandaag daysBefore : Nat) (p : URecord) (b : Bool) :
    ((!p.melding_verzonden && p.datum_einde.isSome) &&
        (hotU vandaag daysBefore p && b)) = (dueU vandaag daysBefore p && b) := by
  cases he : p.datum_einde with
  | none => simp [hotU, dueU, he]
  | some s =>
    simp [hotU, dueU, he, Bool.and_assoc]

/-- The new table after `_check` on the uitzonderingen table: exactly
the rows whose id matches some due row get `melding_verzonden` set. -/
lemma checkTable_table_eq (env : MailEnv) (vandaag daysBefore : Nat)
    (what : String) (db : List URecord) :
    (checkTable uView env vandaag daysBefore what db).table =
      db.map (fun q =>
        if db.any (fun p => dueU vandaag daysBefore p && p.id == q.id)
        then setFlagU q else q) := by
  unfold checkTable
  rw [foldl_scanStep_table, applyRows_eq_map]
  refine List.map_congr_left (fun q _ => ?_)
  rw [show (uView.flag = URecord.melding_verzonden) from rfl,
    show (uView.eind = URecord.datum_einde) from rfl]
  rw [any_filter_bool]
  have : ∀ p : URecord,
      ((!p.melding_verzonden && p.datum_einde.isSome) &&
        (hotU vandaag daysBefore p && (p.id == q.id)))
      = (dueU vandaag daysBefore p && (p.id == q.id)) :=
    fun p => sql_and_hot vandaag daysBefore p _
  simp only [this]

/-- The rows the scan dispatches a mail for: exactly the due rows. -/
lemma checkTable_dispatched_eq (env : MailEnv) (vandaag daysBefore : Nat)
    (what : String) (db : List URecord) :
    (checkTable uView env vandaag daysBefore what db).dispatched =
      db.filter (dueU vandaag daysBefore) := by
  unfold checkTable
  rw [foldl_scanStep_dispatched]
  rw [show (uView.flag = URecord.melding_verzonden) from rfl,
    show (uView.eind = URecord.datum_einde) from rfl]
  rw [List.nil_append, List.filter_filter]
  refine List.filter_congr (fun p _ => ?_)
  cases he : p.datum_einde with
  | none => simp [hotU, dueU, he]
  | some s =>
    cases hm : p.melding_verzonden <;>
      cases hw : inWindow vandaag daysBefore s <;>
        simp [hotU, dueU, he, hm, hw]

/-- Unfolding of the due predicate into the conditions of the spec. -/
lemma dueU_iff (vandaag daysBefore : Nat) (r : URecord) :
    dueU vandaag daysBefore r = true ↔
      r.melding_verzonden = false ∧
        ∃ s dt, r.datum_einde = some s ∧ parseDate s = some dt ∧
          vandaag ≤ toOrdinal dt ∧ toOrdinal dt ≤ vandaag + daysBefore := by
  cases he : r.datum_einde with
  | none => simp [dueU, hotU, he]
  | some s =>
    cases hp : parseDate s with
    | none => simp [dueU, hotU, inWindow, he, hp]
    | some dt => simp [dueU, hotU, inWindow, he, hp, and_assoc]

/-! ## Log-line counting lemmas for the dispatcher -/

lemma outlookPhase_fst (res : OutlookOutcome) (ontv ond : String) :
    (outlookPhase res ontv ond).1 = res.isOk := by
  cases res <;> rfl

lemma outlookPhase_countP_fout (res : OutlookOutcome) (ontv ond : String) :
    (outlookPhase res ontv ond).2.countP LogLine.isOutlookFout =
      if res.isOk then 0 else 1 := by
  cases res with
  | earlyFail r =>
      simp [outlookPhase, OutlookOutcome.isOk, List.countP_cons, LogLine.isOutlookFout]
  | sendOk w =>
      cases w <;>
        simp [outlookPhase, warnLines, OutlookOutcome.isOk, List.countP_append,
          List.countP_cons, LogLine.isOutlookFout]
  | sendFail w r =>
      cases w <;>
        simp [outlookPhase, warnLines, OutlookOutcome.isOk, List.countP_append,
          List.countP_cons, LogLine.isOutlookFout]

lemma outlookPhase_countP_verz (res : OutlookOutcome) (ontv ond : String) :
    (outlookPhase res ontv ond).2.countP LogLine.isVerzonden =
      if res.isOk then 1 else 0 := by
  cases res with
  | earlyFail r =>
      simp [outlookPhase, OutlookOutcome.isOk, List.countP_cons, LogLine.isVerzonden]
  | sendOk w =>
      cases w <;>
        simp [outlookPhase, warnLines, OutlookOutcome.isOk, List.countP_append,
          List.countP_cons, LogLine.isVerzonden]
  | sendFail w r =>
      cases w <;>
        simp [outlookPhase, warnLines, OutlookOutcome.isOk, List.countP_append,
          List.countP_cons, LogLine.isVerzonden]

lemma outlookPhase_countP_smtpPhase (res : OutlookOutcome) (ontv ond : String) :
    (outlookPhase res ontv ond).2.countP LogLine.isSmtpPhase = 0 := by
  cases res with
  | earlyFail r =>
      simp [outlookPhase, List.countP_cons, LogLine.isSmtpPhase]
  | sendOk w =>
      cases w <;>
        simp [outlookPhase, warnLines, List.countP_append, List.countP_cons,
          LogLine.isSmtpPhase]
  | sendFail w r =>
      cases w <;>
        simp [outlookPhase, warnLines, List.countP_append, List.countP_cons,
          LogLine.isSmtpPhase]

lemma outlookPhase_countP_smtpFout (res : OutlookOutcome) (ontv ond : String) :
    (outlookPhase res ontv ond).2.countP LogLine.isSmtpFout = 0 := by
  cases res with
  | earlyFail r =>
      simp [outlookPhase, List.countP_cons, LogLine.isSmtpFout]
  | sendOk w =>
      cases w <;>
        simp [outlookPhase, warnLines, List.countP_append, List.countP_cons,
          LogLine.isSmtpFout]
  | sendFail w r =>
      cases w <;>
        simp [outlookPhase, warnLines, List.countP_append, List.countP_cons,
          LogLine.isSmtpFout]

lemma smtpPhase_fst (env : MailEnv) (ontv ond : String) :
    (smtpPhase env ontv ond).1 = smtpSends env := by
  by_cases hc : smtpConfigured env
  · cases h : env.smtpResult <;>
      simp [smtpPhase, smtpSends, SmtpOutcome.isSent, hc, h]
  · have hc' : smtpConfigured env = false := by simpa using hc
    simp [smtpPhase, smtpSends, hc']

lemma smtpPhase_countP_verz (env : MailEnv) (ontv ond : String) :
    (smtpPhase env ontv ond).2.countP LogLine.isVerzonden =
      if smtpSends env then 1 else 0 := by
  by_cases hc : smtpConfigured env
  · cases h : env.smtpResult <;>
      simp [smtpPhase, smtpSends, SmtpOutcome.isSent, hc, h, List.countP_cons,
        LogLine.isVerzonden]
  · have hc' : smtpConfigured env = false := by simpa using hc
    simp [smtpPhase, smtpSends, hc', List.countP_cons, LogLine.isVerzonden]

lemma smtpPhase_countP_smtpFout (env : MailEnv) (ontv ond : String) :
    (smtpPhase env ontv ond).2.countP LogLine.isSmtpFout =
      if smtpConfigured env && !env.smtpResult.isSent then 1 else 0 := by
  by_cases hc : smtpConfigured env
  · cases h : env.smtpResult <;>
      simp [smtpPhase, SmtpOutcome.isSent, hc, h, List.countP_cons, LogLine.isSmtpFout]
  · have hc' : smtpConfigured env = false := by simpa using hc
    simp [smtpPhase, hc', List.countP_cons, LogLine.isSmtpFout]

lemma smtpPhase_countP_outlookFout (env : MailEnv) (ontv ond : String) :
    (smtpPhase env ontv ond).2.countP LogLine.isOutlookFout = 0 := by
  by_cases hc : smtpConfigured env
  · cases h : env.smtpResult <;>
      simp [smtpPhase, hc, h, List.countP_cons, LogLine.isOutlookFout]
  · have hc' : smtpConfigured env = false := by simpa using hc
    simp [smtpPhase, hc', List.countP_cons, LogLine.isOutlookFout]

lemma smtpPhase_countP_smtpPhase_all (env : MailEnv) (ontv ond : String) :
    (smtpPhase env ontv ond).2.countP LogLine.isSmtpPhase =
      (smtpPhase env ontv ond).2.length := by
  by_cases hc : smtpConfigured env
  · cases h : env.smtpResult <;>
      simp [smtpPhase, hc, h, List.countP_cons, LogLine.isSmtpPhase]
  · have hc' : smtpConfigured env = false := by simpa using hc
    simp [smtpPhase, hc', List.countP_cons, LogLine.isSmtpPhase]

lemma stuurMail_outlook_ok (env : MailEnv) (o t : String) (a : Option String)
    (h1 : env.outlookOk = true) (h2 : env.outlookResult.isOk = true) :
    stuurMail env o t a =
      (true, (outlookPhase env.outlookResult (recipientOf a) o).2) := by
  simp [stuurMail, h1, outlookPhase_fst, h2]

lemma stuurMail_outlook_fail (env : MailEnv) (o t : String) (a : Option String)
    (h1 : env.outlookOk = true) (h2 : env.outlookResult.isOk = false) :
    stuurMail env o t a =
      ((smtpPhase env (recipientOf a) o).1,
        (outlookPhase env.outlookResult (recipientOf a) o).2 ++
          (smtpPhase env (recipientOf a) o).2) := by
  simp [stuurMail, h1, outlookPhase_fst, h2]

lemma stuurMail_no_outlook (env : MailEnv) (o t : String) (a : Option String)
    (h1 : env.outlookOk = false) :
    stuurMail env o t a = smtpPhase env (recipientOf a) o := by
  simp [stuurMail, h1]

/-! ## Shared consequences of the scan characterization -/

/-- Any row of the post-scan table whose id matches a due row of the
pre-scan table carries the notified flag, whatever the mail environment
did. -/
lemma table_flag_of_due (env : MailEnv) (vandaag daysBefore : Nat) (what : String)
    (db : List URecord) (r : URecord) (hr : r ∈ db)
    (hdue : dueU vandaag daysBefore r = true) :
    ∀ q ∈ (checkTable uView env vandaag daysBefore what db).table,
      q.id = r.id → q.melding_verzonden = true := by
  intro q hq hid
  rw [checkTable_table_eq] at hq
  obtain ⟨p, hp, hqp⟩ := List.mem_map.mp hq
  by_cases hc : db.any (fun p2 => dueU vandaag daysBefore p2 && p2.id == p.id) = true
  · rw [if_pos hc] at hqp
    rw [← hqp]
    rfl
  · rw [if_neg hc] at hqp
    exfalso
    apply hc
    refine List.any_eq_true.mpr ⟨r, hr, ?_⟩
    have hpid : p.id = r.id := by rw [← hqp] at hid; exact hid
    simp [hdue, hpid]

/-- Injectivity on members that the primary key gives. -/
lemma id_inj_of_nodup (db : List URecord) (hN : (db.map URecord.id).Nodup) :
    ∀ p ∈ db, ∀ q ∈ db, p.id = q.id → p = q := by
  intro p hp q hq h
  exact List.inj_on_of_nodup_map hN hp hq h

/-! ## Claim theorems -/

/-- C4: for every database state and reference date, the expiry scan
dispatches exactly for the records of the scanned category whose
notified flag is false, whose end date is present and well-formed
(`YYYY-MM-DD`), and whose end date lies between the reference date and
the reference date plus the warning window of the category, inclusive on
both ends. -/
theorem scan_selects_exactly_due (env : MailEnv) (vandaag daysBefore : Nat)
    (what : String) (db : List URecord) (r : URecord) :
    r ∈ (checkTable uView env vandaag daysBefore what db).dispatched ↔
      r ∈ db ∧ r.melding_verzonden = false ∧
        ∃ s dt, r.datum_einde = some s ∧ parseDate s = some dt ∧
          vandaag ≤ toOrdinal dt ∧ toOrdinal dt ≤ vandaag + daysBefore := by
  rw [checkTable_dispatched_eq, List.mem_filter, dueU_iff]

/-- C6: a record with well-formed end date and unset notified flag is
selected when the end date equals the reference date even at
`warning_days = 0`, and is never selected, for any warning window, once
the reference date lies one day past the end date. -/
theorem scan_boundary_days (env : MailEnv) (what : String) (db : List URecord)
    (r : URecord) (s : String) (dt : Date) (hmem : r ∈ db)
    (hflag : r.melding_verzonden = false) (heind : r.datum_einde = some s)
    (hparse : parseDate s = some dt) :
    r ∈ (checkTable uView env (toOrdinal dt) 0 what db).dispatched ∧
      ∀ daysBefore,
        r ∉ (checkTable uView env (toOrdinal dt + 1) daysBefore what db).dispatched := by
  constructor
  · rw [checkTable_dispatched_eq, List.mem_filter]
    refine ⟨hmem, (dueU_iff _ _ _).mpr ⟨hflag, s, dt, heind, hparse, le_rfl, by omega⟩⟩
  · intro daysBefore hin
    rw [checkTable_dispatched_eq, List.mem_filter, dueU_iff] at hin
    obtain ⟨-, -, s2, dt2, he2, hp2, hle, -⟩ := hin
    rw [heind] at he2
    injection he2 with he2
    subst he2
    rw [hparse] at hp2
    injection hp2 with hp2
    subst hp2
    omega

/-- Witness for C6 at a concrete one-row table. -/
theorem scan_boundary_days_witness :
    recJan ∈ [recJan] ∧ recJan.melding_verzonden = false ∧
      recJan.datum_einde = some "2025-01-10" ∧
      parseDate "2025-01-10" = some ⟨2025, 1, 10⟩ ∧
      (recJan ∈ (checkTable uView envGeenKanalen (toOrdinal ⟨2025, 1, 10⟩) 0
          "Uitzondering" [recJan]).dispatched ∧
        ∀ daysBefore,
          recJan ∉ (checkTable uView envGeenKanalen (toOrdinal ⟨2025, 1, 10⟩ + 1)
              daysBefore "Uitzondering" [recJan]).dispatched) :=
  ⟨by decide, by decide, by decide, by decide,
    scan_boundary_days envGeenKanalen "Uitzondering" [recJan] recJan
      "2025-01-10" ⟨2025, 1, 10⟩ (by decide) (by decide) (by decide) (by decide)⟩

/-- C5: once a due record has been processed (dispatch succeeded for it
in particular), its notified flag is true in the new table, and no
later scan — whatever its reference date, warning window or mail
environment — selects a record with that id again. -/
theorem notified_flag_exactly_once (env : MailEnv) (vandaag daysBefore : Nat)
    (what : String) (db : List URecord) (r : URecord) (hr : r ∈ db)
    (hdue : dueU vandaag daysBefore r = true) :
    (∀ q ∈ (checkTable uView env vandaag daysBefore what db).table,
        q.id = r.id → q.melding_verzonden = true) ∧
    (∀ env2 vandaag2 daysBefore2 what2,
        ∀ q ∈ (checkTable uView env2 vandaag2 daysBefore2 what2
            (checkTable uView env vandaag daysBefore what db).table).dispatched,
          q.id ≠ r.id) := by
  have h1 := table_flag_of_due env vandaag daysBefore what db r hr hdue
  refine ⟨h1, ?_⟩
  intro env2 vandaag2 daysBefore2 what2 q hq hqid
  rw [checkTable_dispatched_eq, List.mem_filter] at hq
  have hflag := h1 q hq.1 hqid
  have hdue2 := hq.2
  rw [dueU_iff] at hdue2
  rw [hflag] at hdue2
  exact absurd hdue2.1 (by simp)

/-- Witness for C5 at a concrete one-row table. -/
theorem notified_flag_exactly_once_witness :
    recJan ∈ [recJan] ∧
      dueU (toOrdinal ⟨2025, 1, 5⟩) 14 recJan = true ∧
      ((∀ q ∈ (checkTable uView envGeenKanalen (toOrdinal ⟨2025, 1, 5⟩) 14
            "Uitzondering" [recJan]).table,
          q.id = recJan.id → q.melding_verzonden = true) ∧
        (∀ env2 vandaag2 daysBefore2 what2,
          ∀ q ∈ (checkTable uView env2 vandaag2 daysBefore2 what2
              (checkTable uView envGeenKanalen (toOrdinal ⟨2025, 1, 5⟩) 14
                "Uitzondering" [recJan]).table).dispatched,
            q.id ≠ recJan.id)) :=
  ⟨by decide, by decide,
    notified_flag_exactly_once envGeenKanalen (toOrdinal ⟨2025, 1, 5⟩) 14
      "Uitzondering" [recJan] recJan (by decide) (by decide)⟩

/-- C1 counterexample: in an environment where every channel fails
(`stuur_mail` returns false for the very mail the scan sends), the scan
still sets `melding_verzonden` on the due record. -/
theorem scan_flags_despite_failed_dispatch :
    (stuurMail envGeenKanalen (warnSubject "Uitzondering" 14)
        ("Jan verloopt op 2025-01-10") none).1 = false ∧
      (checkTable uView envGeenKanalen (toOrdinal ⟨2025, 1, 5⟩) 14 "Uitzondering"
          [recJan]).table.map URecord.melding_verzonden = [true] := by
  constructor
  · decide
  · decide

/-- C1 amended: the scan sets the notified flag of every due record it
processes regardless of the dispatch outcome — the mail environment is
universally quantified, so the flag is set even when every channel
failed, and such a record is not re-selected by a later scan. -/
theorem scan_flags_unconditionally (env : MailEnv) (vandaag daysBefore : Nat)
    (what : String) (db : List URecord) (r : URecord) (hr : r ∈ db)
    (hdue : dueU vandaag daysBefore r = true) :
    ∀ q ∈ (checkTable uView env vandaag daysBefore what db).table,
      q.id = r.id → q.melding_verzonden = true :=
  table_flag_of_due env vandaag daysBefore what db r hr hdue

/-- Witness for the amended C1, instantiated at the all-channels-fail
environment. -/
theorem scan_flags_unconditionally_witness :
    recJan ∈ [recJan] ∧
      dueU (toOrdinal ⟨2025, 1, 5⟩) 14 recJan = true ∧
      ∀ q ∈ (checkTable uView envGeenKanalen (toOrdinal ⟨2025, 1, 5⟩) 14
          "Uitzondering" [recJan]).table,
        q.id = recJan.id → q.melding_verzonden = true :=
  ⟨by decide, by decide,
    scan_flags_unconditionally envGeenKanalen (toOrdinal ⟨2025, 1, 5⟩) 14
      "Uitzondering" [recJan] recJan (by decide) (by decide)⟩

/-- C7: the notified flag is monotonic. An edit-form UPDATE carries
`melding_verzonden` over unchanged (it is not in the SET list), the
scan only ever sets it, and an INSERT leaves existing rows untouched
and starts the new row at the DEFAULT false. -/
theorem melding_verzonden_monotonic (db : List URecord)
    (hN : (db.map URecord.id).Nodup) (r : URecord) (hr : r ∈ db)
    (hflag : r.melding_verzonden = true) :
    (∀ rid d, ∀ q ∈ opslaanUpdateU db rid d,
        q.id = r.id → q.melding_verzonden = true) ∧
    (∀ env vandaag daysBefore what,
        ∀ q ∈ (checkTable uView env vandaag daysBefore what db).table,
          q.id = r.id → q.melding_verzonden = true) ∧
    (∀ newId d, r ∈ opslaanInsertU db newId d ∧
        (mkInsertU newId d).melding_verzonden = false) := by
  have hinj := id_inj_of_nodup db hN
  refine ⟨?_, ?_, ?_⟩
  · intro rid d q hq hid
    obtain ⟨p, hp, hqp⟩ := List.mem_map.mp hq
    by_cases hpr : (p.id == rid) = true
    · rw [if_pos hpr] at hqp
      have hqflag : q.melding_verzonden = p.melding_verzonden := by rw [← hqp]; rfl
      have hqid : q.id = p.id := by rw [← hqp]; rfl
      have : p = r := hinj p hp r hr (by rw [← hqid, hid])
      rw [hqflag, this, hflag]
    · rw [if_neg hpr] at hqp
      subst hqp
      have : p = r := hinj p hp r hr hid
      rw [this, hflag]
  · intro env vandaag daysBefore what q hq hid
    rw [checkTable_table_eq] at hq
    obtain ⟨p, hp, hqp⟩ := List.mem_map.mp hq
    by_cases hc : db.any (fun p2 => dueU vandaag daysBefore p2 && p2.id == p.id) = true
    · rw [if_pos hc] at hqp
      rw [← hqp]
      rfl
    · rw [if_neg hc] at hqp
      subst hqp
      have : p = r := hinj p hp r hr hid
      rw [this, hflag]
  · intro newId d
    exact ⟨List.mem_append_left _ hr, rfl⟩

/-- Witness for C7 at a concrete two-row table. -/
theorem melding_verzonden_monotonic_witness :
    ([recOud, recJan].map URecord.id).Nodup ∧
      recOud ∈ [recOud, recJan] ∧ recOud.melding_verzonden = true ∧
      ((∀ rid d, ∀ q ∈ opslaanUpdateU [recOud, recJan] rid d,
          q.id = recOud.id → q.melding_verzonden = true) ∧
        (∀ env vandaag daysBefore what,
          ∀ q ∈ (checkTable uView env vandaag daysBefore what [recOud, recJan]).table,
            q.id = recOud.id → q.melding_verzonden = true) ∧
        (∀ newId d, recOud ∈ opslaanInsertU [recOud, recJan] newId d ∧
            (mkInsertU newId d).melding_verzonden = false)) :=
  ⟨by decide, by decide, by decide,
    melding_verzonden_monotonic [recOud, recJan] (by decide) recOud
      (by decide) (by decide)⟩

/-- C10: a record whose stored end date is present but not parseable in
`YYYY-MM-DD` form is skipped silently by the scan: it is never
dispatched for, and its row — notified flag included — is unchanged in
the post-scan table. -/
theorem scan_skips_malformed_dates (env : MailEnv) (vandaag daysBefore : Nat)
    (what : String) (db : List URecord) (hN : (db.map URecord.id).Nodup)
    (r : URecord) (s : String) (hr : r ∈ db) (heind : r.datum_einde = some s)
    (hbad : parseDate s = none) :
    r ∉ (checkTable uView env vandaag daysBefore what db).dispatched ∧
      ∀ q ∈ (checkTable uView env vandaag daysBefore what db).table,
        q.id = r.id → q = r := by
  have hinj := id_inj_of_nodup db hN
  have hduef : dueU vandaag daysBefore r = false := by
    simp [dueU, hotU, heind, inWindow, hbad]
  constructor
  · intro hin
    rw [checkTable_dispatched_eq, List.mem_filter] at hin
    rw [hduef] at hin
    exact absurd hin.2 (by simp)
  · intro q hq hid
    rw [checkTable_table_eq] at hq
    obtain ⟨p, hp, hqp⟩ := List.mem_map.mp hq
    by_cases hc : db.any (fun p2 => dueU vandaag daysBefore p2 && p2.id == p.id) = true
    · exfalso
      obtain ⟨p2, hp2, hcond⟩ := List.any_eq_true.mp hc
      have hsplit : dueU vandaag daysBefore p2 = true ∧ (p2.id == p.id) = true := by
        simpa using hcond
      have h1 : dueU vandaag daysBefore p2 = true := hsplit.1
      have h2 : p2.id = p.id := eq_of_beq hsplit.2
      have hqid : q.id = p.id := by
        rw [if_pos hc] at hqp
        rw [← hqp]
        rfl
      have hpr : p = r := hinj p hp r hr (by rw [← hqid, hid])
      have hp2r : p2 = r := hinj p2 hp2 r hr (by rw [h2, hpr])
      rw [hp2r, hduef] at h1
      exact absurd h1 (by simp)
    · rw [if_neg hc] at hqp
      subst hqp
      exact hinj p hp r hr hid

/-- Witness for C10 at a concrete table containing a malformed date. -/
theorem scan_skips_malformed_dates_witness :
    ([recStuk, recJan].map URecord.id).Nodup ∧
      recStuk ∈ [recStuk, recJan] ∧
      recStuk.datum_einde = some "10-01-2025" ∧
      parseDate "10-01-2025" = none ∧
      (recStuk ∉ (checkTable uView envGeenKanalen (toOrdinal ⟨2025, 1, 5⟩) 14
          "Uitzondering" [recStuk, recJan]).dispatched ∧
        ∀ q ∈ (checkTable uView envGeenKanalen (toOrdinal ⟨2025, 1, 5⟩) 14
            "Uitzondering" [recStuk, recJan]).table,
          q.id = recStuk.id → q = recStuk) :=
  ⟨by decide, by decide, by decide, by decide,
    scan_skips_malformed_dates envGeenKanalen (toOrdinal ⟨2025, 1, 5⟩) 14
      "Uitzondering" [recStuk, recJan] (by decide) recStuk "10-01-2025"
      (by decide) (by decide) (by decide)⟩

/-- C2: `stuur_mail` tries Outlook first and SMTP second, strictly in
that order: a successful Outlook attempt returns true immediately and
nothing of the SMTP phase is attempted or logged; a failed Outlook
attempt logs exactly one failure-reason line before any SMTP-phase
line, after which the result is whatever SMTP gives; a failed SMTP
attempt logs exactly one failure-reason line; and when every channel
fails the function returns false (it is total — no exception escapes). -/
theorem stuurMail_channel_order (env : MailEnv) (onderwerp tekst : String)
    (toAddr : Option String) :
    (outlookSends env = true →
      (stuurMail env onderwerp tekst toAddr).1 = true ∧
        (stuurMail env onderwerp tekst toAddr).2.countP LogLine.isSmtpPhase = 0) ∧
    (env.outlookOk = true → env.outlookResult.isOk = false →
      ∃ l1 l2, (stuurMail env onderwerp tekst toAddr).2 = l1 ++ l2 ∧
        l1.countP LogLine.isOutlookFout = 1 ∧
        l1.countP LogLine.isSmtpPhase = 0 ∧
        l2.countP LogLine.isSmtpPhase = l2.length ∧
        (stuurMail env onderwerp tekst toAddr).1 = smtpSends env) ∧
    (outlookSends env = false → smtpConfigured env = true →
        env.smtpResult.isSent = false →
      (stuurMail env onderwerp tekst toAddr).2.countP LogLine.isSmtpFout = 1) ∧
    (outlookSends env = false → smtpSends env = false →
      (stuurMail env onderwerp tekst toAddr).1 = false) := by
  refine ⟨?_, ?_, ?_, ?_⟩
  · intro h
    have hp : env.outlookOk = true ∧ env.outlookResult.isOk = true := by
      simpa [outlookSends] using h
    rw [stuurMail_outlook_ok env onderwerp tekst toAddr hp.1 hp.2]
    exact ⟨rfl, outlookPhase_countP_smtpPhase _ _ _⟩
  · intro h1 h2
    rw [stuurMail_outlook_fail env onderwerp tekst toAddr h1 h2]
    refine ⟨_, _, rfl, ?_, ?_, ?_, ?_⟩
    · rw [outlookPhase_countP_fout, h2]
      rfl
    · exact outlookPhase_countP_smtpPhase _ _ _
    · exact smtpPhase_countP_smtpPhase_all _ _ _
    · exact smtpPhase_fst _ _ _
  · intro ho hc hs
    by_cases h1 : env.outlookOk = true
    · have h2 : env.outlookResult.isOk = false := by
        simpa [outlookSends, h1] using ho
      rw [stuurMail_outlook_fail env onderwerp tekst toAddr h1 h2]
      rw [List.countP_append, outlookPhase_countP_smtpFout,
        smtpPhase_countP_smtpFout, hc, hs]
      rfl
    · have h1f : env.outlookOk = false := by simpa using h1
      rw [stuurMail_no_outlook env onderwerp tekst toAddr h1f,
        smtpPhase_countP_smtpFout, hc, hs]
      rfl
  · intro ho hs
    by_cases h1 : env.outlookOk = true
    · have h2 : env.outlookResult.isOk = false := by
        simpa [outlookSends, h1] using ho
      rw [stuurMail_outlook_fail env onderwerp tekst toAddr h1 h2,
        smtpPhase_fst, hs]
    · have h1f : env.outlookOk = false := by simpa using h1
      rw [stuurMail_no_outlook env onderwerp tekst toAddr h1f, smtpPhase_fst, hs]

/-- Witness for C2: both channels attempted and failing yields overall
false. -/
theorem stuurMail_channel_order_witness :
    outlookSends envBeideFalen = false ∧ smtpSends envBeideFalen = false ∧
      (stuurMail envBeideFalen "onderwerp" "tekst" none).1 = false :=
  ⟨by decide, by decide,
    (stuurMail_channel_order envBeideFalen "onderwerp" "tekst" none).2.2.2
      (by decide) (by decide)⟩

/-- C8: `stuur_mail` never writes to the record store: whatever the
channels do, the world after a dispatch has the same database, the mail
debug log being the only thing it appends to. -/
theorem stuurMail_record_store_frame (env : MailEnv) (onderwerp tekst : String)
    (toAddr : Option String) (w : World) :
    ((stuurMailW env onderwerp tekst toAddr w).2).db = w.db := rfl

/-- C9 counterexample: deleting a row is a CRUD mutation that produces
no audit entry at all — the table changes while the log does not. -/
theorem delete_produces_no_audit_entry :
    (verwijderUW worldEen 1).db.uitzonderingen = [] ∧
      (verwijderUW worldEen 1).db.uitzonderingen ≠ worldEen.db.uitzonderingen ∧
      (verwijderUW worldEen 1).maillog = worldEen.maillog := by
  refine ⟨by decide, by decide, by decide⟩

/-- C9 amended: within a dispatch, every attempt appends exactly one
log line of the corresponding kind — one success line exactly when the
dispatch succeeded, one Outlook failure line exactly when Outlook was
attempted and failed, one SMTP failure line exactly when SMTP was
reached, configured and failed — but a CRUD deletion appends no log
line at all. -/
theorem dispatch_logging_delete_silent (env : MailEnv) (onderwerp tekst : String)
    (toAddr : Option String) (w : World) (rid : Nat) :
    ((stuurMail env onderwerp tekst toAddr).2.countP LogLine.isVerzonden =
      if (stuurMail env onderwerp tekst toAddr).1 then 1 else 0) ∧
    ((stuurMail env onderwerp tekst toAddr).2.countP LogLine.isOutlookFout =
      if env.outlookOk && !env.outlookResult.isOk then 1 else 0) ∧
    ((stuurMail env onderwerp tekst toAddr).2.countP LogLine.isSmtpFout =
      if !outlookSends env && (smtpConfigured env && !env.smtpResult.isSent)
      then 1 else 0) ∧
    (verwijderUW w rid).maillog = w.maillog := by
  by_cases h1 : env.outlookOk = true
  · by_cases h2 : env.outlookResult.isOk = true
    · rw [stuurMail_outlook_ok env onderwerp tekst toAddr h1 h2]
      refine ⟨?_, ?_, ?_, rfl⟩
      · rw [outlookPhase_countP_verz, h2]
      · rw [outlookPhase_countP_fout, h2, h1]
        simp
      · rw [outlookPhase_countP_smtpFout]
        simp [outlookSends, h1, h2]
    · have h2f : env.outlookResult.isOk = false := by simpa using h2
      rw [stuurMail_outlook_fail env onderwerp tekst toAddr h1 h2f]
      refine ⟨?_, ?_, ?_, rfl⟩
      · rw [List.countP_append, outlookPhase_countP_verz, h2f,
          smtpPhase_countP_verz, smtpPhase_fst]
        simp
      · rw [List.countP_append, outlookPhase_countP_fout, h2f,
          smtpPhase_countP_outlookFout, h1]
        simp
      · rw [List.countP_append, outlookPhase_countP_smtpFout,
          smtpPhase_countP_smtpFout]
        simp [outlookSends, h1, h2f]
  · have h1f : env.outlookOk = false := by simpa using h1
    rw [stuurMail_no_outlook env onderwerp tekst toAddr h1f]
    refine ⟨?_, ?_, ?_, rfl⟩
    · rw [smtpPhase_countP_verz, smtpPhase_fst]
    · rw [smtpPhase_countP_outlookFout, h1f]
      simp
    · rw [smtpPhase_countP_smtpFout]
      simp [outlookSends, h1f]

/-- C3 counterexample: Scenario A of the spec — an existing record and
an overlapping candidate for the same normalized plate. The save is not
blocked: the insert is persisted next to the conflicting record, and no
conflict check exists anywhere in the code to return it. -/
theorem opslaan_not_blocked_on_overlap :
    specConflict recConflictA candA = true ∧
      opslaanInsertU [recConflictA] 2 candA =
        [recConflictA, mkInsertU 2 candA] := by
  refine ⟨by decide, by decide⟩

/-- C3 amended: `formulier_u.opslaan` performs no conflict check — even
when an existing record with the same normalized subject has an
overlapping window, the INSERT persists the candidate, every existing
row survives, and an UPDATE overwrites the matching row in place; no
save is ever blocked. -/
theorem opslaan_persists_despite_overlap (db : List URecord) (newId : Nat)
    (d : UData) (r : URecord) (_hr : r ∈ db)
    (_hconf : specConflict r d = true) :
    mkInsertU newId d ∈ opslaanInsertU db newId d ∧
      (∀ q ∈ db, q ∈ opslaanInsertU db newId d) ∧
      (∀ rid, ∀ q ∈ db, q.id = rid →
        applyUpdateU d q ∈ opslaanUpdateU db rid d) := by
  refine ⟨?_, ?_, ?_⟩
  · exact List.mem_append_right _ (List.mem_singleton_self _)
  · intro q hq
    exact List.mem_append_left _ hq
  · intro rid q hq hid
    refine List.mem_map.mpr ⟨q, hq, ?_⟩
    rw [if_pos]
    simp [hid]

/-- Witness for the amended C3 at Scenario A. -/
theorem opslaan_persists_despite_overlap_witness :
    recConflictA ∈ [recConflictA] ∧ specConflict recConflictA candA = true ∧
      (mkInsertU 2 candA ∈ opslaanInsertU [recConflictA] 2 candA ∧
        (∀ q ∈ [recConflictA], q ∈ opslaanInsertU [recConflictA] 2 candA) ∧
        (∀ rid, ∀ q ∈ [recConflictA], q.id = rid →
          applyUpdateU candA q ∈ opslaanUpdateU [recConflictA] rid candA)) :=
  ⟨by decide, by decide,
    opslaan_persists_despite_overlap [recConflictA] 2 candA recConflictA
      (by decide) (by decide)⟩

end Parkeer
